import Mathlib

/-!
Shallow embedding of the insta-mcp media-publish pipeline.

The embedding translates the TypeScript sources into Lean:
  * `handleInstagramError`   — src/server/src/tools/instagramPostImage.ts, lines 55-95
    (the identical copies in instagramPostReel.ts and the carousel tool share it);
  * `validateImageUrlForTool` — instagramPostImage.ts, lines 111-159;
  * `checkContainerStatus` / `waitForContainerReady` — instagramPostReel.ts, lines 97-148;
  * `postImageToInstagram`   — instagramPostImage.ts, lines 168-301;
  * `postCarouselToInstagram` — the carousel tool (src/unnamed/part_001), lines 166-294.

JavaScript values are modelled just finely enough for the control flow the
functions actually perform: optional fields are `Option`, JS truthiness on
strings (`""`, `null`, `undefined` are falsy) is explicit, and the HTTP world
is an oracle supplying the response of each fetch.  A JS exception that is not
an `InstagramApiError` (TypeError on a null dereference, fetch network
failure) is modelled by the `Thrown.js` constructor carrying its message.
-/

namespace InstaMcp

/-- The closed error taxonomy `InstagramErrorType` (instagramPostImage.ts 30-38). -/
inductive InstagramErrorType where
  | EXPIRED_TOKEN
  | INVALID_TOKEN
  | INSUFFICIENT_SCOPE
  | RATE_LIMIT
  | INVALID_REQUEST
  | NETWORK_ERROR
  | UNKNOWN_ERROR
deriving DecidableEq, Repr

/-- Structure `InstagramApiError` (instagramPostImage.ts 40-51).  The `originalError`
field only wraps the raw cause and is never inspected by the code, so it is
dropped from the model. -/
structure InstagramApiError where
  message : String
  type : InstagramErrorType
  statusCode : Option Int := none
  fbTraceId : Option String := none
deriving DecidableEq, Repr

/-- The provider error envelope `{error: {code, message, fbtrace_id}}`:
every field may be absent. -/
structure IgErrorEnvelope where
  code : Option Int
  errMessage : Option String
  fbtrace_id : Option String
deriving DecidableEq, Repr

/-- A raw JavaScript value as seen by the dispatch of `handleInstagramError`:
either an already-classified `InstagramApiError`, the JS values `null` /
`undefined` (whose property access throws), or any other value, of which the
code only reads `.error` (a truthy object envelope, when present) and
`.message`. -/
inductive RawError where
  | classified (e : InstagramApiError)
  | nullish
  | obj (errorEnv : Option IgErrorEnvelope) (message : Option String)
deriving DecidableEq, Repr

/-- A parsed JSON response body.  The code reads `.id` (container / publish
responses), `.status_code` (status responses), `.error` and `.message`
(error classification); a JSON `null` body makes any such access throw. -/
structure JsonBody where
  isNull : Bool := false
  id : Option String := none
  status_code : Option String := none
  errorEnv : Option IgErrorEnvelope := none
  message : Option String := none
deriving DecidableEq, Repr

/-- A fetch `Response`: `ok`, `status`, the `content-type` header (read only
by the image validator) and the JSON-decoded body. -/
structure FetchResponse where
  ok : Bool
  status : Nat
  contentType : Option String := none
  body : JsonBody := {}
deriving DecidableEq, Repr

/-- JS `a || b` on an optional string: `undefined` and `""` are falsy. -/
def jsOrElse (m : Option String) (dflt : String) : String :=
  match m with
  | some s => if s = "" then dflt else s
  | none => dflt

/-- JS truthiness of an optional string (`!x` is true exactly when this is
false). -/
def jsTruthy (m : Option String) : Bool :=
  match m with
  | some s => s ≠ ""
  | none => false

/-- View a JSON-decoded body as the raw value handed to
`handleInstagramError`: a JSON body is never an `InstagramApiError` and never
`undefined`, but may be `null`. -/
def bodyToRaw (b : JsonBody) : RawError :=
  if b.isNull then .nullish else .obj b.errorEnv b.message

/-- Provider numeric code → error type (instagramPostImage.ts 65-70):
`190 → EXPIRED_TOKEN`, `100`/`200 → INSUFFICIENT_SCOPE`, `4`/`17 →
RATE_LIMIT`, anything else (a different code or an absent one) keeps the
initial `INVALID_REQUEST`. -/
def igCodeToType (code : Option Int) : InstagramErrorType :=
  match code with
  | some 190 => .EXPIRED_TOKEN
  | some 100 => .INSUFFICIENT_SCOPE
  | some 200 => .INSUFFICIENT_SCOPE
  | some 4 => .RATE_LIMIT
  | some 17 => .RATE_LIMIT
  | _ => .INVALID_REQUEST

/-- Function `handleInstagramError(error, response?)` (instagramPostImage.ts 55-95).
`Except.error msg` models a JS exception escaping the function: accessing
`error.error` on `null`/`undefined` throws a TypeError before any branch can
return. -/
def handleInstagramError (error : RawError) (response : Option FetchResponse) :
    Except String InstagramApiError :=
  match error with
  | .classified e => .ok e                -- error instanceof InstagramApiError
  | .nullish =>                           -- `error.error` on null/undefined throws
    .error "TypeError: Cannot read properties of null (reading 'error')"
  | .obj errorEnv message =>
    match errorEnv with
    | some igError =>                     -- error.error && typeof error.error === "object"
      .ok { message := jsOrElse igError.errMessage "Instagram API error"
            type := igCodeToType igError.code
            statusCode := igError.code
            fbTraceId := igError.fbtrace_id }
    | none =>
      match response with
      | some r =>
        if !r.ok then
          .ok { message := jsOrElse message ("HTTP error " ++ toString r.status)
                type := .NETWORK_ERROR
                statusCode := some (r.status : Int)
                fbTraceId := none }
        else
          .ok { message := jsOrElse message "Unknown error"
                type := .UNKNOWN_ERROR }
      | none =>
        .ok { message := jsOrElse message "Unknown error"
              type := .UNKNOWN_ERROR }

/-! ### String helpers mirroring the JS string methods used by the code -/

/-- Substring test on character lists (kernel-reducible), used to model JS
`String.prototype.includes`. -/
def charsInclude : List Char → List Char → Bool
  | [], pat => pat.isEmpty
  | c :: t, pat => List.isPrefixOf pat (c :: t) || charsInclude t pat

/-- JS `s.includes(pat)`. -/
def strIncludes (s pat : String) : Bool :=
  charsInclude s.data pat.data

/-- JS `s.startsWith(pat)`. -/
def strStartsWith (s pat : String) : Bool :=
  List.isPrefixOf pat.data s.data

/-- JS `array.join(",")` (kernel-reducible). -/
def joinComma : List String → String
  | [] => ""
  | [s] => s
  | s :: rest => s ++ "," ++ joinComma rest

/-! ### Exceptions, fetch outcomes and the request trace -/

/-- A thrown JS exception: either an `InstagramApiError` or any other JS
error (TypeError on a null dereference, a fetch transport failure, ...)
carrying its message. -/
inductive Thrown where
  | api (e : InstagramApiError)
  | js (message : String)
deriving DecidableEq, Repr

/-- The outcome the environment supplies for one `fetch` + `.json()` pair:
either a decoded response, or the fetch/json promise rejecting (DNS failure,
connection refused, invalid JSON body, ...). -/
inductive FetchOutcome where
  | resp (r : FetchResponse)
  | netThrow (message : String)
deriving DecidableEq, Repr

/-- One HTTP request issued by the code, as recorded in the trace:
a HEAD pre-flight, a POST to `{igUserId}/media` (container create), a POST
to `{igUserId}/media_publish`, or a GET status query of a container.
`params` lists the URL-encoded form fields in insertion order. -/
inductive Request where
  | headReq (url : String)
  | mediaCreate (igUserId : String) (params : List (String × String))
  | mediaPublish (igUserId : String) (params : List (String × String))
  | statusQuery (containerId : String)
deriving DecidableEq, Repr

/-- Models `throw handleInstagramError(responseData, response)` on a non-ok
response: classification of the decoded body; if the body is JSON `null`
the classifier itself throws a TypeError, which escapes as a JS error. -/
def classifyFailedResponse (r : FetchResponse) : Thrown :=
  match handleInstagramError (bodyToRaw r.body) (some r) with
  | .ok e => .api e
  | .error m => .js m

/-- The outer `catch (error) { throw handleInstagramError(error) }` of each
orchestrator: an `InstagramApiError` passes through unchanged, any other JS
exception is classified from its message alone. -/
def outerCatch (t : Thrown) : InstagramApiError :=
  match t with
  | .api e =>
    match handleInstagramError (.classified e) none with
    | .ok e2 => e2
    | .error _ => e                      -- unreachable: classified input returns ok
  | .js m =>
    match handleInstagramError (.obj none (some m)) none with
    | .ok e2 => e2
    | .error _ => { message := m, type := .UNKNOWN_ERROR }  -- unreachable

/-- Models `const \x7b id \x7d = responseData` : destructuring a JSON `null` throws a
TypeError; otherwise it reads the optional `id` field. -/
def destructureId (b : JsonBody) : Except String (Option String) :=
  if b.isNull then
    .error "TypeError: Cannot destructure property of null"
  else
    .ok b.id

/-! ### Media validator (instagramPostImage.ts 111-159) -/

/-- Function `validateImageUrlForTool(imageUrl)` with the HEAD-request outcome
supplied by the environment.  Returns the result together with the list of
HTTP requests issued (empty when the HTTPS check fails first).  The
own catch block of the function converts a non-`InstagramApiError` exception
(the HEAD fetch rejecting) through the classifier, so the result is always
an `InstagramApiError` on failure. -/
def validateImageUrlForTool (imageUrl : String) (head : FetchOutcome) :
    Except InstagramApiError Unit × List Request :=
  if !strStartsWith imageUrl "https://" then
    (.error { message := "Image URL must use HTTPS", type := .INVALID_REQUEST }, [])
  else
    let trace := [Request.headReq imageUrl]
    match head with
    | .netThrow m => (.error (outerCatch (.js m)), trace)  -- catch: handleInstagramError(error, undefined)
    | .resp r =>
      if !r.ok then
        (.error
          { message := "Image URL not accessible: " ++ toString r.status
            type := .INVALID_REQUEST }, trace)
      else
        match r.contentType with
        | none =>
          (.error { message := "Image must be in JPEG format", type := .INVALID_REQUEST }, trace)
        | some ct =>
          if !strIncludes ct "image/jpeg" && !strIncludes ct "image/jpg" then
            (.error { message := "Image must be in JPEG format", type := .INVALID_REQUEST }, trace)
          else
            (.ok (), trace)

/-! ### Container readiness poller (instagramPostReel.ts 97-148) -/

/-- Function `checkContainerStatus` (instagramPostReel.ts 97-108): one GET status
query.  A transport failure rethrows as a JS error; a non-ok response throws
the classified body; an ok response returns the decoded body. -/
def checkContainerStatus (outcome : FetchOutcome) : Except Thrown JsonBody :=
  match outcome with
  | .netThrow m => .error (.js m)
  | .resp r =>
    if !r.ok then .error (classifyFailedResponse r)
    else .ok r.body

/-- Models `statusResult.status_code`: reading the field of a JSON `null` body
throws a TypeError. -/
def readStatusCode (b : JsonBody) : Except String (Option String) :=
  if b.isNull then
    .error "TypeError: Cannot read properties of null (reading 'status_code')"
  else
    .ok b.status_code

/-- Result of one iteration of the `try/catch` body of the polling loop. -/
inductive AttemptResult where
  | finished
  | fatal (e : InstagramApiError)
  | cont
deriving DecidableEq, Repr

/-- One iteration of the loop body of `waitForContainerReady` (instagramPostReel.ts
118-141): query the status; `FINISHED` succeeds, `ERROR`/`EXPIRED` throws
`INVALID_REQUEST` (rethrown by the catch since it is not `NETWORK_ERROR`),
any other status continues; a thrown `InstagramApiError` of a kind other
than `NETWORK_ERROR` is rethrown, every other exception is logged and
swallowed. -/
def waitAttempt (outcome : FetchOutcome) : AttemptResult :=
  match checkContainerStatus outcome with
  | .ok body =>
    match readStatusCode body with
    | .error _ => .cont                  -- TypeError caught: not an InstagramApiError
    | .ok sc =>
      if sc = some "FINISHED" then .finished
      else if sc = some "ERROR" || sc = some "EXPIRED" then
        .fatal
          { message := "Reel container processing failed or expired. Status: " ++
              (sc.getD "undefined")
            type := .INVALID_REQUEST }
      else .cont                          -- IN_PROGRESS or others, continue polling
  | .error (.api e) =>
    if e.type ≠ .NETWORK_ERROR then .fatal e
    else .cont                            -- transient network error: log and retry
  | .error (.js _) => .cont               -- non-InstagramApiError exception: log and retry

/-- The timeout error thrown when the deadline passes (instagramPostReel.ts
144-147). -/
def pollTimeoutError : InstagramApiError :=
  { message := "Reel container processing timed out.", type := .UNKNOWN_ERROR }

/-- The polling loop with the remaining number of iterations made explicit:
exhausted fuel models `Date.now() - startTime < maxWaitTimeMs` turning false,
upon which the timeout error is thrown. -/
def waitLoop (outcomes : Nat → FetchOutcome) : Nat → Nat → Except InstagramApiError Bool
  | 0, _ => .error pollTimeoutError
  | fuel + 1, i =>
    match waitAttempt (outcomes i) with
    | .finished => .ok true
    | .fatal e => .error e
    | .cont => waitLoop outcomes fuel (i + 1)

/-- Number of loop iterations under the idealized clock in which each status
query is instantaneous and each sleep takes exactly `pollIntervalMs`: the
i-th check (0-based) happens at elapsed time `i * pollIntervalMs` and runs
iff that is `< maxWaitTimeMs`, so `⌈maxWaitTimeMs / pollIntervalMs⌉` checks
occur in total. -/
def numPolls (maxWaitTimeMs pollIntervalMs : Nat) : Nat :=
  if pollIntervalMs = 0 then 0 else (maxWaitTimeMs + pollIntervalMs - 1) / pollIntervalMs

/-- Function `waitForContainerReady(accessToken, containerId, maxWaitTimeMs = 60000,
pollIntervalMs = 3000)` (instagramPostReel.ts 110-148), over the sequence of
status-query outcomes supplied by the environment. -/
def waitForContainerReady (outcomes : Nat → FetchOutcome)
    (maxWaitTimeMs pollIntervalMs : Nat) : Except InstagramApiError Bool :=
  waitLoop outcomes (numPolls maxWaitTimeMs pollIntervalMs) 0

/-! ### Credentials (user.json) -/

/-- The parsed `user.json` record: both fields may be absent (or empty,
which JS treats as falsy). -/
structure UserData where
  id : Option String := none
  accessToken : Option String := none
deriving DecidableEq, Repr

/-- Models `const \x7b id: igUserId, accessToken: userAccessToken \x7d = userData;
if (!igUserId || !userAccessToken) throw ...` (shared by all three
orchestrators). -/
def loadCredentials (u : UserData) : Except InstagramApiError (String × String) :=
  if !jsTruthy u.id || !jsTruthy u.accessToken then
    .error
      { message := "The user.json file must contain 'id' and 'accessToken' properties."
        type := .INVALID_REQUEST }
  else
    .ok (u.id.getD "", u.accessToken.getD "")

/-- Models `if (caption) containerParams.append("caption", caption)`. -/
def captionParam (caption : Option String) : List (String × String) :=
  if jsTruthy caption then [("caption", caption.getD "")] else []

/-! ### Single-image orchestrator (instagramPostImage.ts 168-301) -/

structure InstagramPostImageInput where
  imageUrl : String
  caption : Option String := none
deriving DecidableEq, Repr

structure InstagramPostImageOutput where
  postId : String
  status : String
deriving DecidableEq, Repr

/-- The environment of one `postImageToInstagram` run: the parsed
credentials and the outcome of each fetch the code can issue. -/
structure ImageWorld where
  user : UserData
  head : FetchOutcome
  containerResp : FetchOutcome
  publishResp : FetchOutcome
deriving Repr

/-- Function `postImageToInstagram(input)` (instagramPostImage.ts 168-301), returning
the result together with the trace of HTTP requests issued.  Every exception
reaching the outer catch is rethrown as `handleInstagramError(error,
undefined)`. -/
def postImageToInstagram (w : ImageWorld) (input : InstagramPostImageInput) :
    Except InstagramApiError InstagramPostImageOutput × List Request :=
  match loadCredentials w.user with
  | .error e => (.error (outerCatch (.api e)), [])
  | .ok (igUserId, token) =>
    -- Step 1: validate image URL
    match validateImageUrlForTool input.imageUrl w.head with
    | (.error e, tr) => (.error (outerCatch (.api e)), tr)
    | (.ok _, tr) =>
      -- Step 2: create media container
      let containerReq := Request.mediaCreate igUserId
        ([("image_url", input.imageUrl), ("access_token", token)] ++ captionParam input.caption)
      let tr1 := tr ++ [containerReq]
      match w.containerResp with
      | .netThrow m => (.error (outerCatch (.js m)), tr1)
      | .resp r =>
        if !r.ok then (.error (outerCatch (classifyFailedResponse r)), tr1)
        else
          match destructureId r.body with
          | .error m => (.error (outerCatch (.js m)), tr1)
          | .ok idOpt =>
            if !jsTruthy idOpt then
              (.error (outerCatch (.api
                { message := "Media container ID not found in response."
                  type := .UNKNOWN_ERROR })), tr1)
            else
              -- Step 3: publish container
              let containerId := idOpt.getD ""
              let publishReq := Request.mediaPublish igUserId
                [("creation_id", containerId), ("access_token", token)]
              let tr2 := tr1 ++ [publishReq]
              match w.publishResp with
              | .netThrow m => (.error (outerCatch (.js m)), tr2)
              | .resp pr =>
                if !pr.ok then (.error (outerCatch (classifyFailedResponse pr)), tr2)
                else
                  match destructureId pr.body with
                  | .error m => (.error (outerCatch (.js m)), tr2)
                  | .ok midOpt =>
                    if !jsTruthy midOpt then
                      (.error (outerCatch (.api
                        { message := "Post ID not found in publish response."
                          type := .UNKNOWN_ERROR })), tr2)
                    else
                      (.ok { postId := midOpt.getD ""
                             status := "Image posted successfully" }, tr2)

/-! ### Carousel orchestrator (src/unnamed/part_001, lines 166-294) -/

inductive CarouselMediaType where
  | IMAGE
  | VIDEO
deriving DecidableEq, Repr

structure CarouselMediaItem where
  type : CarouselMediaType
  url : String
deriving DecidableEq, Repr

structure InstagramPostCarouselInput where
  mediaItems : List CarouselMediaItem
  caption : Option String := none
deriving DecidableEq, Repr

structure InstagramPostCarouselOutput where
  postId : String
  status : String
deriving DecidableEq, Repr

/-- The form fields of one child container-create call (part_001, 199-203):
`image_url` or `video_url` by item type, `is_carousel_item=true`, and the
access token. -/
def childContainerParams (item : CarouselMediaItem) (token : String) :
    List (String × String) :=
  [((match item.type with | .IMAGE => "image_url" | .VIDEO => "video_url"), item.url),
   ("is_carousel_item", "true"),
   ("access_token", token)]

/-- The `for (const item of mediaItems)` loop (part_001, 197-233): create one
child container per item strictly in list order, collecting the ids; the
first failing iteration throws and ends the loop.  `i` indexes into the
response oracle.  No status polling of children occurs (the source comments
at part_001 229-232 state polling is omitted). -/
def createChildContainers (igUserId token : String)
    (responses : Nat → FetchOutcome) :
    List CarouselMediaItem → Nat → Except Thrown (List String) × List Request
  | [], _ => (.ok [], [])
  | item :: rest, i =>
    let req := Request.mediaCreate igUserId (childContainerParams item token)
    match responses i with
    | .netThrow m => (.error (.js m), [req])
    | .resp r =>
      if !r.ok then (.error (classifyFailedResponse r), [req])
      else
        match destructureId r.body with
        | .error m => (.error (.js m), [req])
        | .ok idOpt =>
          if !jsTruthy idOpt then
            (.error (.api
              { message := "Media container ID not found for item " ++ item.url ++ "."
                type := .UNKNOWN_ERROR }), [req])
          else
            let next := createChildContainers igUserId token responses rest (i + 1)
            (next.1.map (fun ids => idOpt.getD "" :: ids), req :: next.2)

/-- The environment of one `postCarouselToInstagram` run. -/
structure CarouselWorld where
  user : UserData
  childResp : Nat → FetchOutcome
  parentResp : FetchOutcome
  publishResp : FetchOutcome

/-- Steps 2 and 3 of `postCarouselToInstagram` (part_001, 235-290): given the
outcome of the child-creation loop, create the parent `CAROUSEL` container
whose `children` field comma-joins the child ids in input order, then
publish it.  A thrown child-creation error reaches the outer catch without
any further request. -/
def carouselAfterChildren (w : CarouselWorld) (input : InstagramPostCarouselInput)
    (igUserId token : String)
    (children : Except Thrown (List String) × List Request) :
    Except InstagramApiError InstagramPostCarouselOutput × List Request :=
  match children with
  | (.error t, tr) => (.error (outerCatch t), tr)
  | (.ok ids, tr) =>
    -- Step 2: create parent carousel container
    let parentReq := Request.mediaCreate igUserId
      ([("media_type", "CAROUSEL"), ("children", joinComma ids), ("access_token", token)]
        ++ captionParam input.caption)
    let tr1 := tr ++ [parentReq]
    match w.parentResp with
    | .netThrow m => (.error (outerCatch (.js m)), tr1)
    | .resp r =>
      if !r.ok then (.error (outerCatch (classifyFailedResponse r)), tr1)
      else
        match destructureId r.body with
        | .error m => (.error (outerCatch (.js m)), tr1)
        | .ok idOpt =>
          if !jsTruthy idOpt then
            (.error (outerCatch (.api
              { message := "Main carousel container ID not found."
                type := .UNKNOWN_ERROR })), tr1)
          else
            -- Step 3: publish the carousel container
            let mainContainerId := idOpt.getD ""
            let publishReq := Request.mediaPublish igUserId
              [("creation_id", mainContainerId), ("access_token", token)]
            let tr2 := tr1 ++ [publishReq]
            match w.publishResp with
            | .netThrow m => (.error (outerCatch (.js m)), tr2)
            | .resp pr =>
              if !pr.ok then (.error (outerCatch (classifyFailedResponse pr)), tr2)
              else
                match destructureId pr.body with
                | .error m => (.error (outerCatch (.js m)), tr2)
                | .ok midOpt =>
                  if !jsTruthy midOpt then
                    (.error (outerCatch (.api
                      { message := "Carousel post ID not found in publish response."
                        type := .UNKNOWN_ERROR })), tr2)
                  else
                    (.ok { postId := midOpt.getD ""
                           status := "Carousel posted successfully" }, tr2)

/-- Function `postCarouselToInstagram(input)` (part_001, 166-294), returning
the result together with the trace of HTTP requests issued.  The credential
and item-count checks precede the `try` block and any fetch; the `try` body
creates the child containers sequentially (step 1) and hands their ids to
`carouselAfterChildren` (steps 2 and 3). -/
def postCarouselToInstagram (w : CarouselWorld) (input : InstagramPostCarouselInput) :
    Except InstagramApiError InstagramPostCarouselOutput × List Request :=
  match loadCredentials w.user with
  | .error e => (.error e, [])
  | .ok (igUserId, token) =>
    if input.mediaItems.length < 2 || input.mediaItems.length > 10 then
      (.error
        { message := "Carousel must have between 2 and 10 media items."
          type := .INVALID_REQUEST }, [])
    else
      carouselAfterChildren w input igUserId token
        (createChildContainers igUserId token w.childResp input.mediaItems 0)

/-! ### Observation predicates used by the theorem statements -/

/-- The content-type acceptance test of the image validator as a predicate:
a header is acceptable when it is present and includes `image/jpeg` or
`image/jpg`. -/
def contentTypeAcceptable (ct : Option String) : Bool :=
  match ct with
  | none => false
  | some s => strIncludes s "image/jpeg" || strIncludes s "image/jpg"

/-- Statement that the i-th status query yields an ok response whose body
carries the given `status_code`. -/
def queryReturns (outcomes : Nat → FetchOutcome) (i : Nat) (c : String) : Prop :=
  ∃ r, outcomes i = .resp r ∧ r.ok = true ∧ r.body.isNull = false ∧
    r.body.status_code = some c

/-- Statement that one child container-create fetch succeeded: an ok
response with a non-null body whose `id` is truthy. -/
def childSuccess (o : FetchOutcome) : Bool :=
  match o with
  | .resp r => r.ok && !r.body.isNull && jsTruthy r.body.id
  | .netThrow _ => false

/-- The container id a successful child container-create response carries. -/
def childIdOf (o : FetchOutcome) : String :=
  match o with
  | .resp r => r.body.id.getD ""
  | .netThrow _ => ""

/-- The request a child container-create call issues for one item. -/
def childCreateRequest (igUserId token : String) (item : CarouselMediaItem) : Request :=
  .mediaCreate igUserId (childContainerParams item token)

def isHeadRequest : Request → Bool
  | .headReq _ => true
  | _ => false

def isStatusQueryRequest : Request → Bool
  | .statusQuery _ => true
  | _ => false

def isPublishRequest : Request → Bool
  | .mediaPublish _ _ => true
  | _ => false

/-- Statement that a request is the parent carousel container-create: a POST
to `media` whose first form field is `media_type=CAROUSEL`. -/
def isCarouselCreateRequest : Request → Bool
  | .mediaCreate _ (("media_type", "CAROUSEL") :: _) => true
  | _ => false

/-! ### Concrete environments used by the witnesses -/

/-- Status-query response: ok, `status_code = FINISHED`. -/
def finishedStatusResp : FetchResponse :=
  { ok := true, status := 200, body := { status_code := some "FINISHED" } }

/-- Status-query response: ok, `status_code = IN_PROGRESS`. -/
def inProgressStatusResp : FetchResponse :=
  { ok := true, status := 200, body := { status_code := some "IN_PROGRESS" } }

/-- Status-query response: ok, `status_code = ERROR`. -/
def errorStatusResp : FetchResponse :=
  { ok := true, status := 200, body := { status_code := some "ERROR" } }

/-- Status-query response: HTTP 503 with no provider envelope, which the
classifier maps to `NETWORK_ERROR`. -/
def unreachableStatusResp : FetchResponse :=
  { ok := false, status := 503 }

/-- Status-query response: HTTP 400 whose body carries the provider envelope
with code 190, which the classifier maps to `EXPIRED_TOKEN`. -/
def expiredTokenEnvelope : IgErrorEnvelope :=
  { code := some 190, errMessage := some "token expired", fbtrace_id := some "T1" }

def expiredTokenStatusResp : FetchResponse :=
  { ok := false, status := 400, body := { errorEnv := some expiredTokenEnvelope } }

/-- Poll sequence: FINISHED at once. -/
def pollSeqFinished : Nat → FetchOutcome := fun _ => .resp finishedStatusResp

/-- Poll sequence: ERROR at once. -/
def pollSeqError : Nat → FetchOutcome := fun _ => .resp errorStatusResp

/-- Poll sequence: always IN_PROGRESS (times out). -/
def pollSeqInProgress : Nat → FetchOutcome := fun _ => .resp inProgressStatusResp

/-- Poll sequence: one transient 503, then FINISHED. -/
def pollSeqTransient : Nat → FetchOutcome := fun i =>
  if i = 0 then .resp unreachableStatusResp else .resp finishedStatusResp

/-- Poll sequence: a fatal classified error (expired token) at once. -/
def pollSeqFatal : Nat → FetchOutcome := fun _ => .resp expiredTokenStatusResp

/-- A well-formed `user.json`. -/
def exampleUser : UserData := { id := some "42", accessToken := some "tok" }

/-- HEAD response: ok, JPEG content type. -/
def jpegHeadResp : FetchResponse :=
  { ok := true, status := 200, contentType := some "image/jpeg" }

/-- HEAD response: HTTP 404. -/
def notFoundHeadResp : FetchResponse :=
  { ok := false, status := 404 }

/-- HEAD response: ok but PNG content type. -/
def pngHeadResp : FetchResponse :=
  { ok := true, status := 200, contentType := some "image/png" }

/-- Container-create response with id `"123"`. -/
def containerResp123 : FetchResponse :=
  { ok := true, status := 200, body := { id := some "123" } }

/-- Publish response with id `"456"`. -/
def publishResp456 : FetchResponse :=
  { ok := true, status := 200, body := { id := some "456" } }

/-- Generic successful container-create response factory. -/
def okIdResp (s : String) : FetchResponse :=
  { ok := true, status := 200, body := { id := some s } }

/-- The image-orchestrator environment of the testable property: container
create answers `{id: "123"}`, publish answers `{id: "456"}`. -/
def imageExampleWorld : ImageWorld :=
  { user := exampleUser
    head := .resp jpegHeadResp
    containerResp := .resp containerResp123
    publishResp := .resp publishResp456 }

def imageExampleInput : InstagramPostImageInput :=
  { imageUrl := "https://example.com/a.jpg" }

/-- A carousel environment in which every call succeeds: the children
receive ids cidA, cidB, cidC, the parent receives `parent-id`, publish
answers `post-id`. -/
def carouselHappyWorld : CarouselWorld :=
  { user := exampleUser
    childResp := fun i =>
      .resp (okIdResp (if i = 0 then "cidA" else if i = 1 then "cidB" else "cidC"))
    parentResp := .resp (okIdResp "parent-id")
    publishResp := .resp (okIdResp "post-id") }

/-- A carousel environment in which the second child create fails with
HTTP 500. -/
def carouselChildFailWorld : CarouselWorld :=
  { user := exampleUser
    childResp := fun i =>
      if i = 1 then .resp { ok := false, status := 500 }
      else .resp (okIdResp (if i = 0 then "cidA" else "cidC"))
    parentResp := .resp (okIdResp "parent-id")
    publishResp := .resp (okIdResp "post-id") }

/-- Carousel input: IMAGE a, VIDEO b (the VIDEO child exercises the absence
of child polling), with a non-https first URL for the no-pre-flight claim. -/
def carouselExampleInput : InstagramPostCarouselInput :=
  { mediaItems :=
      [ { type := .IMAGE, url := "http://example.com/a.jpg" },
        { type := .VIDEO, url := "https://example.com/b.mp4" } ] }

/-- Carousel input with three items, as in the ordering property. -/
def carouselThreeInput : InstagramPostCarouselInput :=
  { mediaItems :=
      [ { type := .IMAGE, url := "https://example.com/a.jpg" },
        { type := .VIDEO, url := "https://example.com/b.mp4" },
        { type := .IMAGE, url := "https://example.com/c.jpg" } ] }

/-- Carousel input with a single item (out of range). -/
def carouselOneItemInput : InstagramPostCarouselInput :=
  { mediaItems := [ { type := .IMAGE, url := "https://example.com/a.jpg" } ] }

/-! ## Theorems -/

/-- C3 (counterexample): the claim that the classifier preserves `message`
verbatim, and that every input not matching an earlier rule yields
`UNKNOWN_ERROR`, fails: (a) an envelope with code 190 and the empty-string
message yields the default message `"Instagram API error"` instead of the
empty string (JS `||` treats `""` as falsy); (b) on the input `null` the
function throws a TypeError instead of returning a classified error. -/
theorem handleInstagramError_verbatim_counterexample :
    (handleInstagramError
        (.obj (some { code := some 190, errMessage := some "", fbtrace_id := none }) none)
        none =
      .ok { message := "Instagram API error", type := .EXPIRED_TOKEN
            statusCode := some 190, fbTraceId := none } ∧
      ("Instagram API error" : String) ≠ "") ∧
    handleInstagramError .nullish none =
      .error "TypeError: Cannot read properties of null (reading 'error')" := by
  exact ⟨⟨rfl, by decide⟩, rfl⟩

/-- C3 (amended): for every input that is not `null`/`undefined`,
`classify` follows the first-match-wins order: (1) a classified
`InstagramApiError` is returned unchanged; (2) a payload with a provider
envelope is mapped by numeric code — 190 to EXPIRED_TOKEN, 100/200 to
INSUFFICIENT_SCOPE, 4/17 to RATE_LIMIT, anything else to INVALID_REQUEST —
with `fbtrace_id` preserved verbatim and `message` preserved verbatim when
non-empty (an absent or empty message becomes "Instagram API error");
(3) otherwise a present non-success HTTP response yields NETWORK_ERROR
carrying that status; (4) otherwise UNKNOWN_ERROR carrying the original
message when non-empty. -/
theorem handleInstagramError_decision_order :
    (∀ (e : InstagramApiError) (resp : Option FetchResponse),
       handleInstagramError (.classified e) resp = .ok e) ∧
    (∀ (env : IgErrorEnvelope) (msg : Option String) (resp : Option FetchResponse),
       handleInstagramError (.obj (some env) msg) resp =
         .ok { message := jsOrElse env.errMessage "Instagram API error"
               type := igCodeToType env.code
               statusCode := env.code
               fbTraceId := env.fbtrace_id }) ∧
    (∀ c : Int, igCodeToType (some c) =
       if c = 190 then .EXPIRED_TOKEN
       else if c = 100 ∨ c = 200 then .INSUFFICIENT_SCOPE
       else if c = 4 ∨ c = 17 then .RATE_LIMIT
       else .INVALID_REQUEST) ∧
    (∀ s : String, s ≠ "" → jsOrElse (some s) "Instagram API error" = s) ∧
    (∀ (msg : Option String) (r : FetchResponse), r.ok = false →
       ∃ e, handleInstagramError (.obj none msg) (some r) = .ok e ∧
         e.type = .NETWORK_ERROR ∧ e.statusCode = some (r.status : Int)) ∧
    (∀ (msg : Option String) (resp : Option FetchResponse),
       (∀ r, resp = some r → r.ok = true) →
       handleInstagramError (.obj none msg) resp =
         .ok { message := jsOrElse msg "Unknown error", type := .UNKNOWN_ERROR }) := by
  refine ⟨fun e resp => rfl, fun env msg resp => rfl, ?_, ?_, ?_, ?_⟩
  · intro c
    unfold igCodeToType
    split <;> simp_all
  · intro s hs
    simp [jsOrElse, hs]
  · intro msg r hr
    exact ⟨{ message := jsOrElse msg ("HTTP error " ++ toString r.status)
             type := .NETWORK_ERROR
             statusCode := some (r.status : Int)
             fbTraceId := none },
           by simp [handleInstagramError, hr], rfl, rfl⟩
  · intro msg resp h
    cases resp with
    | none => rfl
    | some r =>
      have hr : r.ok = true := h r rfl
      simp [handleInstagramError, hr]

/-- C3 (witness): the amended decision order at concrete inputs — the
envelope with code 190 and message "token expired" classifies to
EXPIRED_TOKEN with the message and trace id verbatim, and a bare HTTP 503
response classifies to NETWORK_ERROR carrying status 503. -/
theorem handleInstagramError_decision_order_witness :
    handleInstagramError (.obj (some expiredTokenEnvelope) none) none =
      .ok { message := "token expired", type := .EXPIRED_TOKEN
            statusCode := some 190, fbTraceId := some "T1" } ∧
    (∃ e, handleInstagramError (.obj none none) (some unreachableStatusResp) = .ok e ∧
       e.type = .NETWORK_ERROR ∧ e.statusCode = some ((503 : Nat) : Int)) := by
  constructor
  · have h := handleInstagramError_decision_order.2.1 expiredTokenEnvelope none none
    simpa [expiredTokenEnvelope, jsOrElse, igCodeToType] using h
  · have h := handleInstagramError_decision_order.2.2.2.2.1 none unreachableStatusResp rfl
    simpa [unreachableStatusResp] using h

/-- C9: contrary to the never-throws contract, `classify` throws on the
inputs `null` and `undefined` (modelled by `RawError.nullish`): the
`error.error` property access raises a TypeError before any branch can
return, whether or not an HTTP response is supplied. -/
theorem handleInstagramError_throws_on_null :
    handleInstagramError .nullish none =
      .error "TypeError: Cannot read properties of null (reading 'error')" ∧
    handleInstagramError .nullish (some unreachableStatusResp) =
      .error "TypeError: Cannot read properties of null (reading 'error')" := by
  exact ⟨rfl, rfl⟩

/-! ### Lemmas about the polling loop -/

lemma charsInclude_self (l : List Char) : charsInclude l l = true := by
  cases l with
  | nil => rfl
  | cons c t => simp [charsInclude, List.isPrefixOf_iff_prefix]

lemma charsInclude_append_left (a c : List Char) : charsInclude (a ++ c) c = true := by
  induction a with
  | nil => simpa using charsInclude_self c
  | cons x t ih => simp [charsInclude, List.cons_append, ih]

lemma strIncludes_append_left (a c : String) : strIncludes (a ++ c) c = true := by
  show charsInclude (a ++ c).data c.data = true
  have h : (a ++ c).data = a.data ++ c.data := rfl
  rw [h]
  exact charsInclude_append_left a.data c.data

lemma waitAttempt_finished_of (r : FetchResponse) (hok : r.ok = true)
    (hnull : r.body.isNull = false) (hsc : r.body.status_code = some "FINISHED") :
    waitAttempt (.resp r) = .finished := by
  simp [waitAttempt, checkContainerStatus, readStatusCode, hok, hnull, hsc]

lemma waitAttempt_fatal_of_terminal (r : FetchResponse) (c : String)
    (hc : c = "ERROR" ∨ c = "EXPIRED") (hok : r.ok = true)
    (hnull : r.body.isNull = false) (hsc : r.body.status_code = some c) :
    waitAttempt (.resp r) =
      .fatal { message := "Reel container processing failed or expired. Status: " ++ c
               type := .INVALID_REQUEST } := by
  rcases hc with rfl | rfl <;>
    simp [waitAttempt, checkContainerStatus, readStatusCode, hok, hnull, hsc]

lemma waitAttempt_finished_elim (o : FetchOutcome) (h : waitAttempt o = .finished) :
    ∃ r, o = .resp r ∧ r.ok = true ∧ r.body.isNull = false ∧
      r.body.status_code = some "FINISHED" := by
  cases o with
  | netThrow m => simp [waitAttempt, checkContainerStatus] at h
  | resp r =>
    refine ⟨r, rfl, ?_⟩
    by_cases hok : r.ok
    · by_cases hnull : r.body.isNull
      · simp [waitAttempt, checkContainerStatus, readStatusCode, hok, hnull] at h
      · by_cases hsc : r.body.status_code = some "FINISHED"
        · exact ⟨hok, by simpa using hnull, hsc⟩
        · by_cases herr : r.body.status_code = some "ERROR" ∨ r.body.status_code = some "EXPIRED"
          · simp [waitAttempt, checkContainerStatus, readStatusCode, hok, hnull, hsc, herr] at h
          · simp [waitAttempt, checkContainerStatus, readStatusCode, hok, hnull, hsc, herr] at h
    · have hok2 : r.ok = false := by simpa using hok
      cases hcf : classifyFailedResponse r with
      | api e =>
        by_cases hne : e.type = .NETWORK_ERROR <;>
          simp [waitAttempt, checkContainerStatus, hok2, hcf, hne] at h
      | js m => simp [waitAttempt, checkContainerStatus, hok2, hcf] at h

lemma waitAttempt_of_api_throw (o : FetchOutcome) (e : InstagramApiError)
    (hq : checkContainerStatus o = .error (.api e)) :
    waitAttempt o = (if e.type = .NETWORK_ERROR then .cont else .fatal e) := by
  by_cases hne : e.type = .NETWORK_ERROR <;> simp [waitAttempt, hq, hne]

lemma waitLoop_cont_shift (outcomes : Nat → FetchOutcome) (k : Nat) :
    ∀ (fuel i : Nat), (∀ j, j < k → waitAttempt (outcomes (i + j)) = .cont) →
      waitLoop outcomes (k + fuel) i = waitLoop outcomes fuel (i + k) := by
  induction k with
  | zero => intro fuel i _; simp
  | succ k ih =>
    intro fuel i h
    have h0 : waitAttempt (outcomes i) = .cont := by simpa using h 0 (Nat.succ_pos k)
    have hstep : waitLoop outcomes (k + 1 + fuel) i = waitLoop outcomes (k + fuel) (i + 1) := by
      have : k + 1 + fuel = (k + fuel) + 1 := by omega
      rw [this]
      simp [waitLoop, h0]
    rw [hstep, ih fuel (i + 1) (fun j hj => by
      have := h (j + 1) (by omega)
      simpa [Nat.add_assoc, Nat.add_comm 1 j] using this)]
    congr 1
    omega

lemma waitLoop_ok_elim (outcomes : Nat → FetchOutcome) :
    ∀ (fuel i : Nat) (b : Bool), waitLoop outcomes fuel i = .ok b →
      ∃ k, k < fuel ∧ waitAttempt (outcomes (i + k)) = .finished := by
  intro fuel
  induction fuel with
  | zero => intro i b h; simp [waitLoop] at h
  | succ fuel ih =>
    intro i b h
    cases ha : waitAttempt (outcomes i) with
    | finished => exact ⟨0, Nat.succ_pos fuel, by simpa using ha⟩
    | fatal e => simp [waitLoop, ha] at h
    | cont =>
      have h2 : waitLoop outcomes fuel (i + 1) = .ok b := by
        simpa [waitLoop, ha] using h
      obtain ⟨k, hk, hfin⟩ := ih (i + 1) b h2
      exact ⟨k + 1, by omega, by simpa [Nat.add_assoc, Nat.add_comm 1 k] using hfin⟩

lemma waitLoop_all_cont (outcomes : Nat → FetchOutcome) :
    ∀ (fuel i : Nat), (∀ j, j < fuel → waitAttempt (outcomes (i + j)) = .cont) →
      waitLoop outcomes fuel i = .error pollTimeoutError := by
  intro fuel
  induction fuel with
  | zero => intro i _; rfl
  | succ fuel ih =>
    intro i h
    have h0 : waitAttempt (outcomes i) = .cont := by simpa using h 0 (Nat.succ_pos fuel)
    have := ih (i + 1) (fun j hj => by
      have := h (j + 1) (by omega)
      simpa [Nat.add_assoc, Nat.add_comm 1 j] using this)
    simp [waitLoop, h0, this]

/-- C1: the readiness poller implements the specified state machine.  For
every poll-outcome sequence and every check index i reached with only
non-terminal attempts before it: a query returning `FINISHED` makes the
wait succeed at once; a query returning `ERROR` or `EXPIRED` makes it fail
at once with `INVALID_REQUEST` and a message that includes the observed
status code.  If every check within the deadline is non-terminal the wait
fails with the `UNKNOWN_ERROR` timeout ("processing timed out"), and the
wait never succeeds unless some query within the deadline returned
`FINISHED`. -/
theorem waitForContainerReady_state_machine
    (outcomes : Nat → FetchOutcome) (m p : Nat) :
    (∀ i, i < numPolls m p → (∀ j, j < i → waitAttempt (outcomes j) = .cont) →
      (queryReturns outcomes i "FINISHED" →
         waitForContainerReady outcomes m p = .ok true) ∧
      (∀ c, c = "ERROR" ∨ c = "EXPIRED" → queryReturns outcomes i c →
         waitForContainerReady outcomes m p =
           .error { message := "Reel container processing failed or expired. Status: " ++ c
                    type := .INVALID_REQUEST } ∧
         strIncludes ("Reel container processing failed or expired. Status: " ++ c) c
           = true)) ∧
    ((∀ i, i < numPolls m p → waitAttempt (outcomes i) = .cont) →
       waitForContainerReady outcomes m p = .error pollTimeoutError ∧
       pollTimeoutError.type = .UNKNOWN_ERROR ∧
       strIncludes pollTimeoutError.message "processing timed out" = true) ∧
    (∀ b, waitForContainerReady outcomes m p = .ok b →
       ∃ i, i < numPolls m p ∧ queryReturns outcomes i "FINISHED") := by
  refine ⟨?_, ?_, ?_⟩
  · intro i hi hpre
    have hshift : waitForContainerReady outcomes m p =
        waitLoop outcomes (numPolls m p - i) i := by
      unfold waitForContainerReady
      have hsum : numPolls m p = i + (numPolls m p - i) := by omega
      rw [hsum, waitLoop_cont_shift outcomes i (numPolls m p - i) 0
        (fun j hj => by simpa using hpre j hj)]
      simp
    have hfuel : numPolls m p - i = (numPolls m p - i - 1) + 1 := by omega
    constructor
    · rintro ⟨r, hro, hok, hnull, hsc⟩
      rw [hshift, hfuel]
      have := waitAttempt_finished_of r hok hnull hsc
      rw [← hro] at this
      simp [waitLoop, this]
    · rintro c hc ⟨r, hro, hok, hnull, hsc⟩
      refine ⟨?_, strIncludes_append_left _ c⟩
      rw [hshift, hfuel]
      have := waitAttempt_fatal_of_terminal r c hc hok hnull hsc
      rw [← hro] at this
      simp [waitLoop, this]
  · intro hall
    refine ⟨?_, by decide, by decide⟩
    unfold waitForContainerReady
    exact waitLoop_all_cont outcomes (numPolls m p) 0
      (fun j hj => by simpa using hall j hj)
  · intro b h
    obtain ⟨k, hk, hfin⟩ := waitLoop_ok_elim outcomes (numPolls m p) 0 b h
    obtain ⟨r, hro, hok, hnull, hsc⟩ := waitAttempt_finished_elim _ hfin
    exact ⟨k, hk, r, by simpa using hro, hok, hnull, hsc⟩

/-- C1 (witness): with the defaults (60000 ms, 3000 ms → 20 checks), an
immediate `FINISHED` succeeds, an immediate `ERROR` fails with
`INVALID_REQUEST` naming the status, and a sequence that never leaves
`IN_PROGRESS` times out with `UNKNOWN_ERROR`. -/
theorem waitForContainerReady_state_machine_witness :
    waitForContainerReady pollSeqFinished 60000 3000 = .ok true ∧
    waitForContainerReady pollSeqError 60000 3000 =
      .error { message := "Reel container processing failed or expired. Status: ERROR"
               type := .INVALID_REQUEST } ∧
    waitForContainerReady pollSeqInProgress 60000 3000 = .error pollTimeoutError := by
  refine ⟨?_, ?_, ?_⟩
  · exact ((waitForContainerReady_state_machine pollSeqFinished 60000 3000).1 0
      (by decide) (fun j hj => absurd hj (Nat.not_lt_zero j))).1
      ⟨finishedStatusResp, rfl, rfl, rfl, rfl⟩
  · have h := ((waitForContainerReady_state_machine pollSeqError 60000 3000).1 0
      (by decide) (fun j hj => absurd hj (Nat.not_lt_zero j))).2
      "ERROR" (Or.inl rfl) ⟨errorStatusResp, rfl, rfl, rfl, rfl⟩
    exact h.1
  · exact ((waitForContainerReady_state_machine pollSeqInProgress 60000 3000).2.1
      (by decide)).1

/-- C2: while polling, a status query that fails with a classified
`NETWORK_ERROR` does not abort the wait — the loop goes on exactly as the
remaining iterations dictate — whereas a classified error of any other kind
propagates to the caller immediately. -/
theorem waitForContainerReady_poll_error_handling
    (outcomes : Nat → FetchOutcome) (m p i : Nat) (e : InstagramApiError)
    (hi : i < numPolls m p)
    (hpre : ∀ j, j < i → waitAttempt (outcomes j) = .cont)
    (hq : checkContainerStatus (outcomes i) = .error (.api e)) :
    (e.type = .NETWORK_ERROR →
       waitForContainerReady outcomes m p =
         waitLoop outcomes (numPolls m p - (i + 1)) (i + 1)) ∧
    (e.type ≠ .NETWORK_ERROR → waitForContainerReady outcomes m p = .error e) := by
  have hshift : waitForContainerReady outcomes m p =
      waitLoop outcomes (numPolls m p - i) i := by
    unfold waitForContainerReady
    have hsum : numPolls m p = i + (numPolls m p - i) := by omega
    rw [hsum, waitLoop_cont_shift outcomes i (numPolls m p - i) 0
      (fun j hj => by simpa using hpre j hj)]
    simp
  have hfuel : numPolls m p - i = (numPolls m p - (i + 1)) + 1 := by omega
  have hatt := waitAttempt_of_api_throw (outcomes i) e hq
  constructor
  · intro hne
    rw [hshift, hfuel]
    simp [waitLoop, hatt, hne]
  · intro hne
    rw [hshift, hfuel]
    simp [waitLoop, hatt, hne]

/-- C2 (witness): a transient HTTP 503 on the first check (classified
`NETWORK_ERROR`) leaves the wait equal to the remaining loop, which then
succeeds on the next `FINISHED` check; a classified `EXPIRED_TOKEN` failure
on the first check aborts the wait with that very error. -/
theorem waitForContainerReady_poll_error_handling_witness :
    (waitForContainerReady pollSeqTransient 60000 3000 =
       waitLoop pollSeqTransient (numPolls 60000 3000 - 1) 1 ∧
     waitForContainerReady pollSeqTransient 60000 3000 = .ok true) ∧
    waitForContainerReady pollSeqFatal 60000 3000 =
      .error { message := "token expired", type := .EXPIRED_TOKEN
               statusCode := some 190, fbTraceId := some "T1" } := by
  refine ⟨⟨?_, ?_⟩, ?_⟩
  · exact (waitForContainerReady_poll_error_handling pollSeqTransient 60000 3000 0
      { message := "HTTP error 503", type := .NETWORK_ERROR
        statusCode := some 503, fbTraceId := none }
      (by decide) (fun j hj => absurd hj (Nat.not_lt_zero j)) rfl).1 rfl
  · have h1 := (waitForContainerReady_poll_error_handling pollSeqTransient 60000 3000 0
      { message := "HTTP error 503", type := .NETWORK_ERROR
        statusCode := some 503, fbTraceId := none }
      (by decide) (fun j hj => absurd hj (Nat.not_lt_zero j)) rfl).1 rfl
    rw [h1]
    rfl
  · exact (waitForContainerReady_poll_error_handling pollSeqFatal 60000 3000 0
      { message := "token expired", type := .EXPIRED_TOKEN
        statusCode := some 190, fbTraceId := some "T1" }
      (by decide) (fun j hj => absurd hj (Nat.not_lt_zero j)) rfl).2 (by decide)

/-- C7: the image validator applies its three rules in order with the first
failure winning — a non-`https://` URL fails with `INVALID_REQUEST` and
issues no HEAD request (empty trace, whatever the HEAD oracle holds); with
an https URL, a non-success HEAD response fails with `INVALID_REQUEST`; an
ok HEAD response whose content type does not include `image/jpeg` or
`image/jpg` fails with `INVALID_REQUEST`; otherwise validation succeeds. -/
theorem validateImageUrlForTool_rules (url : String) (head : FetchOutcome) :
    (strStartsWith url "https://" = false →
       validateImageUrlForTool url head =
         (.error { message := "Image URL must use HTTPS", type := .INVALID_REQUEST }, [])) ∧
    (∀ r, strStartsWith url "https://" = true → head = .resp r → r.ok = false →
       validateImageUrlForTool url head =
         (.error { message := "Image URL not accessible: " ++ toString r.status
                   type := .INVALID_REQUEST }, [.headReq url])) ∧
    (∀ r, strStartsWith url "https://" = true → head = .resp r → r.ok = true →
       contentTypeAcceptable r.contentType = false →
       validateImageUrlForTool url head =
         (.error { message := "Image must be in JPEG format", type := .INVALID_REQUEST },
          [.headReq url])) ∧
    (∀ r, strStartsWith url "https://" = true → head = .resp r → r.ok = true →
       contentTypeAcceptable r.contentType = true →
       validateImageUrlForTool url head = (.ok (), [.headReq url])) := by
  refine ⟨?_, ?_, ?_, ?_⟩
  · intro hs
    simp [validateImageUrlForTool, hs]
  · rintro r hs rfl hok
    simp [validateImageUrlForTool, hs, hok]
  · rintro r hs rfl hok hct
    cases hc : r.contentType with
    | none => simp [validateImageUrlForTool, hs, hok, hc]
    | some ct =>
      rw [hc] at hct
      simp only [contentTypeAcceptable, Bool.or_eq_false_iff] at hct
      obtain ⟨h1, h2⟩ := hct
      simp [validateImageUrlForTool, hs, hok, hc, h1, h2]
  · rintro r hs rfl hok hct
    cases hc : r.contentType with
    | none => rw [hc] at hct; simp [contentTypeAcceptable] at hct
    | some ct =>
      rw [hc] at hct
      simp only [contentTypeAcceptable, Bool.or_eq_true] at hct
      rcases hct with h1 | h1 <;>
        simp [validateImageUrlForTool, hs, hok, hc, h1]

/-- C7 (witness): the four rules at concrete inputs — an `http://` URL is
rejected with no HEAD request, a 404 HEAD response is rejected, a PNG
content type is rejected, and an ok JPEG response passes. -/
theorem validateImageUrlForTool_rules_witness :
    validateImageUrlForTool "http://example.com/a.jpg" (.resp jpegHeadResp) =
      (.error { message := "Image URL must use HTTPS", type := .INVALID_REQUEST }, []) ∧
    validateImageUrlForTool "https://example.com/a.jpg" (.resp notFoundHeadResp) =
      (.error { message := "Image URL not accessible: " ++ toString (404 : Nat)
                type := .INVALID_REQUEST }, [.headReq "https://example.com/a.jpg"]) ∧
    validateImageUrlForTool "https://example.com/a.jpg" (.resp pngHeadResp) =
      (.error { message := "Image must be in JPEG format", type := .INVALID_REQUEST },
       [.headReq "https://example.com/a.jpg"]) ∧
    validateImageUrlForTool "https://example.com/a.jpg" (.resp jpegHeadResp) =
      (.ok (), [.headReq "https://example.com/a.jpg"]) := by
  refine ⟨?_, ?_, ?_, ?_⟩
  · exact (validateImageUrlForTool_rules "http://example.com/a.jpg" (.resp jpegHeadResp)).1
      (by decide)
  · exact (validateImageUrlForTool_rules "https://example.com/a.jpg"
      (.resp notFoundHeadResp)).2.1 notFoundHeadResp (by decide) rfl rfl
  · exact (validateImageUrlForTool_rules "https://example.com/a.jpg"
      (.resp pngHeadResp)).2.2.1 pngHeadResp (by decide) rfl rfl (by decide)
  · exact (validateImageUrlForTool_rules "https://example.com/a.jpg"
      (.resp jpegHeadResp)).2.2.2 jpegHeadResp (by decide) rfl rfl (by decide)

/-- C5: the image orchestrator returns a `PublishResult` only when the
publish call answered with an HTTP success status and a truthy (non-empty)
post id, the returned `postId` being exactly the id of the publish response
body (never the container id); and on the concrete exchange
container-create `{id:"123"}` then publish `{id:"456"}` the result is
`{postId:"456", status:"Image posted successfully"}`. -/
theorem postImageToInstagram_result_contract :
    (∀ (w : ImageWorld) (input : InstagramPostImageInput)
       (out : InstagramPostImageOutput) (tr : List Request),
       postImageToInstagram w input = (.ok out, tr) →
       ∃ pr, w.publishResp = .resp pr ∧ pr.ok = true ∧ pr.body.isNull = false ∧
         pr.body.id = some out.postId ∧ out.postId ≠ "" ∧
         out.status = "Image posted successfully") ∧
    (postImageToInstagram imageExampleWorld imageExampleInput).1 =
      .ok { postId := "456", status := "Image posted successfully" } := by
  constructor
  · rintro w input out tr h
    unfold postImageToInstagram at h
    repeat' split at h
    all_goals try simp at h
    rename_i _ _ _ pr hpub hok _ midOpt hd hmt
    have hok2 : pr.ok = true := by simpa using hok
    have hnn : pr.body.isNull = false := by
      by_cases hn : pr.body.isNull = true
      · simp [destructureId, hn] at hd
      · simpa using hn
    have hid : pr.body.id = midOpt := by
      simpa [destructureId, hnn] using hd
    obtain ⟨s, rfl⟩ : ∃ s, midOpt = some s := by
      cases midOpt with
      | none => simp [jsTruthy] at hmt
      | some s => exact ⟨s, rfl⟩
    have hs : s ≠ "" := by simpa [jsTruthy] using hmt
    obtain ⟨h1, h2⟩ := h
    refine ⟨pr, hpub, hok2, hnn, ?_, ?_, ?_⟩
    · rw [hid, ← h1]
      simp
    · rw [← h1]
      simpa using hs
    · rw [← h1]
  · rfl

/-- C5 (witness): the contract applied to the concrete 123/456 exchange —
the publish response is the one whose body id `"456"` becomes the result
`postId`. -/
theorem postImageToInstagram_result_contract_witness :
    ∃ pr, imageExampleWorld.publishResp = .resp pr ∧ pr.ok = true ∧
      pr.body.isNull = false ∧ pr.body.id = some "456" := by
  have h := postImageToInstagram_result_contract.1 imageExampleWorld imageExampleInput
    { postId := "456", status := "Image posted successfully" }
    [ .headReq "https://example.com/a.jpg",
      .mediaCreate "42"
        [("image_url", "https://example.com/a.jpg"), ("access_token", "tok")],
      .mediaPublish "42" [("creation_id", "123"), ("access_token", "tok")] ]
    rfl
  obtain ⟨pr, h1, h2, h3, h4, _, _⟩ := h
  exact ⟨pr, h1, h2, h3, h4⟩

/-! ### Lemmas about the carousel child-creation loop -/

lemma createChildContainers_all_success (uid token : String)
    (responses : Nat → FetchOutcome) :
    ∀ (items : List CarouselMediaItem) (i : Nat),
      (∀ j, j < items.length → childSuccess (responses (i + j)) = true) →
      createChildContainers uid token responses items i =
        (.ok ((List.range items.length).map (fun j => childIdOf (responses (i + j)))),
         items.map (childCreateRequest uid token)) := by
  intro items
  induction items with
  | nil => intro i _; simp [createChildContainers]
  | cons item rest ih =>
    intro i h
    have h0 : childSuccess (responses i) = true := by simpa using h 0 (by simp)
    cases hr : responses i with
    | netThrow m => rw [hr] at h0; simp [childSuccess] at h0
    | resp r =>
      rw [hr] at h0
      simp only [childSuccess, Bool.and_eq_true, Bool.not_eq_true'] at h0
      obtain ⟨⟨hok, hnull⟩, htr⟩ := h0
      have hrec := ih (i + 1) (fun j hj => by
        have := h (j + 1) (by simpa using Nat.succ_lt_succ hj)
        simpa [Nat.add_assoc, Nat.add_comm 1 j] using this)
      have hfun : (fun j => childIdOf (responses (i + 1 + j))) =
          (fun j => childIdOf (responses (i + (j + 1)))) := by
        funext j
        have e : i + 1 + j = i + (j + 1) := by omega
        rw [e]
      rw [hfun] at hrec
      have hhead : childIdOf (FetchOutcome.resp r) = r.body.id.getD "" := by
        simp [childIdOf]
      simp [createChildContainers, hr, hok, destructureId, hnull, htr, hrec,
        childCreateRequest, List.range_succ_eq_map, List.map_map, Function.comp_def,
        Nat.succ_eq_add_one, Except.map, hhead]

lemma createChildContainers_cons_head (uid token : String)
    (responses : Nat → FetchOutcome) (item : CarouselMediaItem)
    (rest : List CarouselMediaItem) (i : Nat) :
    ∃ t, (createChildContainers uid token responses (item :: rest) i).2 =
      childCreateRequest uid token item :: t := by
  unfold createChildContainers
  cases responses i with
  | netThrow m => exact ⟨[], rfl⟩
  | resp r =>
    by_cases hok : (!r.ok) = true
    · exact ⟨[], by simp [hok, childCreateRequest]⟩
    · simp only [hok]
      cases hd : destructureId r.body with
      | error m => exact ⟨[], by simp [childCreateRequest]⟩
      | ok idOpt =>
        by_cases ht : (!jsTruthy idOpt) = true
        · exact ⟨[], by simp [ht, childCreateRequest]⟩
        · exact ⟨(createChildContainers uid token responses rest (i + 1)).2,
            by simp [ht, childCreateRequest]⟩

lemma createChildContainers_prefix (uid token : String)
    (responses : Nat → FetchOutcome) :
    ∀ (items : List CarouselMediaItem) (k i : Nat) (hk : k < items.length),
      (∀ j, j < k → childSuccess (responses (i + j)) = true) →
      ∃ suffix, (createChildContainers uid token responses items i).2 =
        (items.take k).map (childCreateRequest uid token) ++
          childCreateRequest uid token (items.get ⟨k, hk⟩) :: suffix := by
  intro items
  induction items with
  | nil => intro k i hk; simp at hk
  | cons item rest ih =>
    intro k i hk hpre
    cases k with
    | zero =>
      obtain ⟨t, ht⟩ := createChildContainers_cons_head uid token responses item rest i
      exact ⟨t, by simpa using ht⟩
    | succ k =>
      have h0 : childSuccess (responses i) = true := by simpa using hpre 0 (by omega)
      cases hr : responses i with
      | netThrow m => rw [hr] at h0; simp [childSuccess] at h0
      | resp r =>
        rw [hr] at h0
        simp only [childSuccess, Bool.and_eq_true, Bool.not_eq_true'] at h0
        obtain ⟨⟨hok, hnull⟩, htr⟩ := h0
        obtain ⟨suffix, hs⟩ := ih k (i + 1) (by simpa using hk) (fun j hj => by
          have := hpre (j + 1) (by omega)
          simpa [Nat.add_assoc, Nat.add_comm 1 j] using this)
        refine ⟨suffix, ?_⟩
        simp [createChildContainers, hr, hok, destructureId, hnull, htr,
          childCreateRequest, hs]

lemma createChildContainers_fail_at (uid token : String)
    (responses : Nat → FetchOutcome) :
    ∀ (items : List CarouselMediaItem) (k i : Nat), k < items.length →
      (∀ j, j < k → childSuccess (responses (i + j)) = true) →
      (∃ r, responses (i + k) = .resp r ∧ r.ok = false) →
      ∃ t, createChildContainers uid token responses items i =
        (.error t, (items.take (k + 1)).map (childCreateRequest uid token)) := by
  intro items
  induction items with
  | nil => intro k i hk; simp at hk
  | cons item rest ih =>
    intro k i hk hpre hfail
    cases k with
    | zero =>
      obtain ⟨r, hr, hok⟩ := hfail
      rw [Nat.add_zero] at hr
      exact ⟨classifyFailedResponse r,
        by simp [createChildContainers, hr, hok, childCreateRequest]⟩
    | succ k =>
      have h0 : childSuccess (responses i) = true := by simpa using hpre 0 (by omega)
      cases hr : responses i with
      | netThrow m => rw [hr] at h0; simp [childSuccess] at h0
      | resp r =>
        rw [hr] at h0
        simp only [childSuccess, Bool.and_eq_true, Bool.not_eq_true'] at h0
        obtain ⟨⟨hok, hnull⟩, htr⟩ := h0
        obtain ⟨t, hs⟩ := ih k (i + 1) (by simpa using hk) (fun j hj => by
            have := hpre (j + 1) (by omega)
            simpa [Nat.add_assoc, Nat.add_comm 1 j] using this)
          (by obtain ⟨r2, hr2, hok2⟩ := hfail
              exact ⟨r2, by simpa [Nat.add_assoc, Nat.add_comm 1 k] using hr2, hok2⟩)
        refine ⟨t, ?_⟩
        simp [createChildContainers, hr, hok, destructureId, hnull, htr,
          childCreateRequest, hs, Except.map]

lemma createChildContainers_trace_shape (uid token : String)
    (responses : Nat → FetchOutcome) :
    ∀ (items : List CarouselMediaItem) (i : Nat),
      ∃ n, (createChildContainers uid token responses items i).2 =
        (items.take n).map (childCreateRequest uid token) := by
  intro items
  induction items with
  | nil => intro i; exact ⟨0, by simp [createChildContainers]⟩
  | cons item rest ih =>
    intro i
    unfold createChildContainers
    cases responses i with
    | netThrow m => exact ⟨1, by simp [childCreateRequest]⟩
    | resp r =>
      by_cases hok : (!r.ok) = true
      · exact ⟨1, by simp [hok, childCreateRequest]⟩
      · simp only [hok]
        cases hd : destructureId r.body with
        | error m => exact ⟨1, by simp [childCreateRequest]⟩
        | ok idOpt =>
          by_cases ht : (!jsTruthy idOpt) = true
          · exact ⟨1, by simp [ht, childCreateRequest]⟩
          · obtain ⟨n, hn⟩ := ih (i + 1)
            exact ⟨n + 1, by simp [ht, childCreateRequest, hn]⟩

lemma childCreateRequest_kind (uid token : String) (item : CarouselMediaItem) :
    isHeadRequest (childCreateRequest uid token item) = false ∧
    isStatusQueryRequest (childCreateRequest uid token item) = false ∧
    isPublishRequest (childCreateRequest uid token item) = false ∧
    isCarouselCreateRequest (childCreateRequest uid token item) = false := by
  cases item with
  | mk ty url => cases ty <;> exact ⟨rfl, rfl, rfl, rfl⟩

lemma loadCredentials_error_elim (u : UserData) (e : InstagramApiError)
    (h : loadCredentials u = .error e) : e.type = .INVALID_REQUEST := by
  unfold loadCredentials at h
  by_cases hc : (!jsTruthy u.id || !jsTruthy u.accessToken) = true
  · simp [hc] at h
    rw [← h]
  · simp [hc] at h

lemma postCarouselToInstagram_main (w : CarouselWorld)
    (input : InstagramPostCarouselInput) (uid token : String)
    (hcreds : loadCredentials w.user = .ok (uid, token))
    (h2 : 2 ≤ input.mediaItems.length) (h10 : input.mediaItems.length ≤ 10) :
    postCarouselToInstagram w input =
      carouselAfterChildren w input uid token
        (createChildContainers uid token w.childResp input.mediaItems 0) := by
  have hcond : (decide (input.mediaItems.length < 2) ||
      decide (input.mediaItems.length > 10)) = false := by
    simp only [Bool.or_eq_false_iff, decide_eq_false_iff_not]
    omega
  simp [postCarouselToInstagram, hcreds, hcond]

lemma carouselAfterChildren_ok_trace (w : CarouselWorld)
    (input : InstagramPostCarouselInput) (uid token : String)
    (ids : List String) (tr : List Request) :
    ∃ rest, (carouselAfterChildren w input uid token (.ok ids, tr)).2 =
      tr ++ Request.mediaCreate uid
        ([("media_type", "CAROUSEL"), ("children", joinComma ids), ("access_token", token)]
          ++ captionParam input.caption) :: rest ∧
      (rest = [] ∨ ∃ cid, rest =
        [Request.mediaPublish uid [("creation_id", cid), ("access_token", token)]]) := by
  unfold carouselAfterChildren
  cases w.parentResp with
  | netThrow m => exact ⟨[], by simp, Or.inl rfl⟩
  | resp r =>
    cases hok : r.ok with
    | false => exact ⟨[], by simp [hok], Or.inl rfl⟩
    | true =>
      cases hd : destructureId r.body with
      | error m => exact ⟨[], by simp [hok, hd], Or.inl rfl⟩
      | ok idOpt =>
        cases ht : jsTruthy idOpt with
        | false => exact ⟨[], by simp [hok, hd, ht], Or.inl rfl⟩
        | true =>
          refine ⟨[Request.mediaPublish uid
            [("creation_id", idOpt.getD ""), ("access_token", token)]], ?_,
            Or.inr ⟨idOpt.getD "", rfl⟩⟩
          cases w.publishResp with
          | netThrow m => simp [hok, hd, ht]
          | resp pr =>
            cases hpok : pr.ok with
            | false => simp [hok, hd, ht, hpok]
            | true =>
              cases hpd : destructureId pr.body with
              | error m2 => simp [hok, hd, ht, hpok, hpd]
              | ok midOpt =>
                cases hmt : jsTruthy midOpt with
                | false => simp [hok, hd, ht, hpok, hpd, hmt]
                | true => simp [hok, hd, ht, hpok, hpd, hmt]

lemma carouselAfterChildren_trace_prefix (w : CarouselWorld)
    (input : InstagramPostCarouselInput) (uid token : String)
    (children : Except Thrown (List String) × List Request) :
    ∃ ext, (carouselAfterChildren w input uid token children).2 = children.2 ++ ext := by
  obtain ⟨res, tr⟩ := children
  cases res with
  | error t => exact ⟨[], by simp [carouselAfterChildren]⟩
  | ok ids =>
    obtain ⟨rest, h, _⟩ := carouselAfterChildren_ok_trace w input uid token ids tr
    exact ⟨_, h⟩

lemma carouselAfterChildren_trace_mem (w : CarouselWorld)
    (input : InstagramPostCarouselInput) (uid token : String)
    (children : Except Thrown (List String) × List Request) (q : Request)
    (hq : q ∈ (carouselAfterChildren w input uid token children).2) :
    q ∈ children.2 ∨ (isHeadRequest q = false ∧ isStatusQueryRequest q = false) := by
  obtain ⟨res, tr⟩ := children
  cases res with
  | error t =>
    simp only [carouselAfterChildren] at hq
    exact Or.inl hq
  | ok ids =>
    obtain ⟨rest, h, hrest⟩ := carouselAfterChildren_ok_trace w input uid token ids tr
    rw [h] at hq
    rcases List.mem_append.mp hq with hmem | hmem
    · exact Or.inl hmem
    · right
      rcases List.mem_cons.mp hmem with rfl | hmem2
      · exact ⟨rfl, rfl⟩
      · rcases hrest with rfl | ⟨cid, rfl⟩
        · simp at hmem2
        · rcases List.mem_singleton.mp hmem2 with rfl
          exact ⟨rfl, rfl⟩

/-- C4: with valid credentials and an in-range item list, the carousel
orchestrator creates the child containers strictly sequentially in input
order (each request using `image_url` or `video_url` per the item type and
tagged `is_carousel_item=true` — this is `childContainerParams`), and the
parent container request follows them with its `children` field equal to
the comma-join of the child ids in that same order; if the k-th child
creation fails after k successes, the whole operation fails and the trace
is exactly the first k+1 child-create requests — no parent carousel create
and no publish request is ever issued. -/
theorem postCarouselToInstagram_sequential_children
    (w : CarouselWorld) (input : InstagramPostCarouselInput) (uid token : String)
    (hcreds : loadCredentials w.user = .ok (uid, token))
    (h2 : 2 ≤ input.mediaItems.length) (h10 : input.mediaItems.length ≤ 10) :
    ((∀ j, j < input.mediaItems.length → childSuccess (w.childResp j) = true) →
      ∃ rest, (postCarouselToInstagram w input).2 =
        input.mediaItems.map (childCreateRequest uid token) ++
          Request.mediaCreate uid
            ([("media_type", "CAROUSEL"),
              ("children", joinComma ((List.range input.mediaItems.length).map
                 (fun j => childIdOf (w.childResp j)))),
              ("access_token", token)] ++ captionParam input.caption) :: rest) ∧
    (∀ k, k < input.mediaItems.length →
      (∀ j, j < k → childSuccess (w.childResp j) = true) →
      (∃ r, w.childResp k = .resp r ∧ r.ok = false) →
      (∃ e, (postCarouselToInstagram w input).1 = .error e) ∧
      (postCarouselToInstagram w input).2 =
        (input.mediaItems.take (k + 1)).map (childCreateRequest uid token) ∧
      ∀ q ∈ (postCarouselToInstagram w input).2,
        isCarouselCreateRequest q = false ∧ isPublishRequest q = false) := by
  rw [postCarouselToInstagram_main w input uid token hcreds h2 h10]
  constructor
  · intro hsucc
    have hch := createChildContainers_all_success uid token w.childResp input.mediaItems 0
      (fun j hj => by simpa using hsucc j hj)
    simp only [Nat.zero_add] at hch
    rw [hch]
    obtain ⟨rest, h, _⟩ := carouselAfterChildren_ok_trace w input uid token _ _
    exact ⟨rest, h⟩
  · intro k hk hpre hfail
    obtain ⟨t, hch⟩ := createChildContainers_fail_at uid token w.childResp
      input.mediaItems k 0 hk (fun j hj => by simpa using hpre j hj)
      (by obtain ⟨r, hr, hok⟩ := hfail; exact ⟨r, by simpa using hr, hok⟩)
    rw [hch]
    refine ⟨⟨outerCatch t, rfl⟩, rfl, ?_⟩
    intro q hq
    simp only [carouselAfterChildren] at hq
    obtain ⟨item, _, rfl⟩ := List.mem_map.mp hq
    exact ⟨(childCreateRequest_kind uid token item).2.2.2,
           (childCreateRequest_kind uid token item).2.2.1⟩

/-- C4 (witness): for the three-item carousel `[IMAGE a, VIDEO b, IMAGE c]`
in the all-success environment the trace is the three child creates in
input order followed by the parent create whose `children` field joins the
ids in that order (`cidA,cidB,cidC`); in the environment where the second
child create returns HTTP 500 the operation fails with a trace of exactly
the first two child creates and neither a parent create nor a publish. -/
theorem postCarouselToInstagram_sequential_children_witness :
    (∃ rest, (postCarouselToInstagram carouselHappyWorld carouselThreeInput).2 =
      carouselThreeInput.mediaItems.map (childCreateRequest "42" "tok") ++
        Request.mediaCreate "42"
          ([("media_type", "CAROUSEL"),
            ("children", joinComma ((List.range carouselThreeInput.mediaItems.length).map
               (fun j => childIdOf (carouselHappyWorld.childResp j)))),
            ("access_token", "tok")] ++ captionParam carouselThreeInput.caption) :: rest) ∧
    joinComma ((List.range carouselThreeInput.mediaItems.length).map
      (fun j => childIdOf (carouselHappyWorld.childResp j))) = "cidA,cidB,cidC" ∧
    ((∃ e, (postCarouselToInstagram carouselChildFailWorld carouselThreeInput).1 = .error e) ∧
     (postCarouselToInstagram carouselChildFailWorld carouselThreeInput).2 =
       (carouselThreeInput.mediaItems.take 2).map (childCreateRequest "42" "tok") ∧
     ∀ q ∈ (postCarouselToInstagram carouselChildFailWorld carouselThreeInput).2,
       isCarouselCreateRequest q = false ∧ isPublishRequest q = false) := by
  refine ⟨?_, by decide, ?_⟩
  · exact (postCarouselToInstagram_sequential_children carouselHappyWorld carouselThreeInput
      "42" "tok" rfl (by decide) (by decide)).1 (by decide)
  · exact (postCarouselToInstagram_sequential_children carouselChildFailWorld carouselThreeInput
      "42" "tok" rfl (by decide) (by decide)).2 1 (by decide)
      (by decide) ⟨{ ok := false, status := 500 }, rfl, rfl⟩

/-- C6: for every carousel input with fewer than 2 or more than 10 items the
orchestrator fails with an `INVALID_REQUEST` error and an empty request
trace — no container-create, status, or publish call is issued — whatever
the environment holds. -/
theorem postCarouselToInstagram_range_check (w : CarouselWorld)
    (input : InstagramPostCarouselInput)
    (hlen : input.mediaItems.length < 2 ∨ input.mediaItems.length > 10) :
    ∃ e, postCarouselToInstagram w input = (.error e, []) ∧
      e.type = .INVALID_REQUEST := by
  unfold postCarouselToInstagram
  cases hc : loadCredentials w.user with
  | error e =>
    refine ⟨e, ?_, loadCredentials_error_elim w.user e hc⟩
    simp
  | ok pr =>
    obtain ⟨uid, token⟩ := pr
    have hcond : (decide (input.mediaItems.length < 2) ||
        decide (input.mediaItems.length > 10)) = true := by
      rcases hlen with h | h <;> simp [h]
    refine ⟨{ message := "Carousel must have between 2 and 10 media items."
              type := .INVALID_REQUEST }, ?_, rfl⟩
    simp [hcond]

/-- C6 (witness): a one-item carousel fails with `INVALID_REQUEST` and an
empty trace even in an all-success environment. -/
theorem postCarouselToInstagram_range_check_witness :
    ∃ e, postCarouselToInstagram carouselHappyWorld carouselOneItemInput = (.error e, []) ∧
      e.type = .INVALID_REQUEST :=
  postCarouselToInstagram_range_check carouselHappyWorld carouselOneItemInput
    (Or.inl (by decide))

/-- C8 (counterexample): for the concrete carousel `[IMAGE a, VIDEO b]` in
an all-success environment, the parent carousel container is created (the
trace holds a `media_type=CAROUSEL` create) while no container-status query
is ever issued: the orchestrator does not apply the readiness poller to the
VIDEO child before creating the parent, contrary to the claim. -/
theorem postCarouselToInstagram_no_child_poll_counterexample :
    (carouselExampleInput.mediaItems.any
      (fun it => it.type == CarouselMediaType.VIDEO)) = true ∧
    ((postCarouselToInstagram carouselHappyWorld carouselExampleInput).2.any
        isCarouselCreateRequest) = true ∧
    ((postCarouselToInstagram carouselHappyWorld carouselExampleInput).2.any
        isStatusQueryRequest) = false := by
  exact ⟨by decide, by decide, by decide⟩

/-- C8 (amended): the carousel orchestrator never applies the container
readiness poller — for every environment and input, its request trace
contains no container-status query at all, video children included; child
container ids flow directly into the parent carousel create. -/
theorem postCarouselToInstagram_never_polls (w : CarouselWorld)
    (input : InstagramPostCarouselInput) :
    ∀ q ∈ (postCarouselToInstagram w input).2, isStatusQueryRequest q = false := by
  intro q hq
  unfold postCarouselToInstagram at hq
  cases hc : loadCredentials w.user with
  | error e => rw [hc] at hq; simp at hq
  | ok pr =>
    obtain ⟨uid, token⟩ := pr
    rw [hc] at hq
    by_cases hcond : (decide (input.mediaItems.length < 2) ||
        decide (input.mediaItems.length > 10)) = true
    · simp [hcond] at hq
    · have hcond2 : (decide (input.mediaItems.length < 2) ||
          decide (input.mediaItems.length > 10)) = false := by
        simpa using hcond
      simp only [hcond2, Bool.false_eq_true, if_false] at hq
      rcases carouselAfterChildren_trace_mem w input uid token _ q hq with hmem | ⟨_, h⟩
      · obtain ⟨n, hn⟩ := createChildContainers_trace_shape uid token
          w.childResp input.mediaItems 0
        rw [hn] at hmem
        obtain ⟨item, _, rfl⟩ := List.mem_map.mp hmem
        exact (childCreateRequest_kind uid token item).2.1
      · exact h

/-- C8 (amended, witness): the first request of the concrete
`[IMAGE a, VIDEO b]` run is a child create, not a status query. -/
theorem postCarouselToInstagram_never_polls_witness :
    isStatusQueryRequest (childCreateRequest "42" "tok"
      { type := .IMAGE, url := "http://example.com/a.jpg" }) = false :=
  postCarouselToInstagram_never_polls carouselHappyWorld carouselExampleInput
    (childCreateRequest "42" "tok" { type := .IMAGE, url := "http://example.com/a.jpg" })
    (by decide)

/-- C10: unlike the single-image orchestrator, the carousel orchestrator
performs no local pre-flight validation: with valid credentials and an
in-range item list its trace never contains a HEAD request, and — as long
as every earlier child create succeeded — the k-th request issued is the
child container-create for the k-th item carrying that item URL unchanged
(in particular a non-https URL is forwarded, not rejected locally). -/
theorem postCarouselToInstagram_no_preflight
    (w : CarouselWorld) (input : InstagramPostCarouselInput) (uid token : String)
    (hcreds : loadCredentials w.user = .ok (uid, token))
    (h2 : 2 ≤ input.mediaItems.length) (h10 : input.mediaItems.length ≤ 10) :
    (∀ q ∈ (postCarouselToInstagram w input).2, isHeadRequest q = false) ∧
    (∀ k (hk : k < input.mediaItems.length),
      (∀ j, j < k → childSuccess (w.childResp j) = true) →
      (postCarouselToInstagram w input).2.get? k =
        some (childCreateRequest uid token (input.mediaItems.get ⟨k, hk⟩)) ∧
      ((match (input.mediaItems.get ⟨k, hk⟩).type with
          | CarouselMediaType.IMAGE => "image_url"
          | CarouselMediaType.VIDEO => "video_url"),
        (input.mediaItems.get ⟨k, hk⟩).url) ∈
          childContainerParams (input.mediaItems.get ⟨k, hk⟩) token) := by
  rw [postCarouselToInstagram_main w input uid token hcreds h2 h10]
  constructor
  · intro q hq
    rcases carouselAfterChildren_trace_mem w input uid token _ q hq with hmem | ⟨h, _⟩
    · obtain ⟨n, hn⟩ := createChildContainers_trace_shape uid token
        w.childResp input.mediaItems 0
      rw [hn] at hmem
      obtain ⟨item, _, rfl⟩ := List.mem_map.mp hmem
      exact (childCreateRequest_kind uid token item).1
    · exact h
  · intro k hk hpre
    constructor
    · obtain ⟨suffix, hsuf⟩ := createChildContainers_prefix uid token w.childResp
        input.mediaItems k 0 hk (fun j hj => by simpa using hpre j hj)
      obtain ⟨ext, hext⟩ := carouselAfterChildren_trace_prefix w input uid token
        (createChildContainers uid token w.childResp input.mediaItems 0)
      rw [hext, hsuf]
      rw [List.append_assoc]
      have hlen2 : ((input.mediaItems.take k).map (childCreateRequest uid token)).length
          = k := by
        simp [List.length_map, List.length_take]
        omega
      rw [List.get?_append_right (le_of_eq hlen2), hlen2]
      simp
    · generalize input.mediaItems.get ⟨k, hk⟩ = item
      obtain ⟨ty, url⟩ := item
      cases ty <;> simp [childContainerParams]

/-- C10 (witness): in the `[IMAGE a, VIDEO b]` run whose first item URL is
`http://example.com/a.jpg` (not https), the first request issued is the
child create forwarding that URL unchanged under `image_url` — no HTTPS
rejection and no HEAD request happens. -/
theorem postCarouselToInstagram_no_preflight_witness :
    (postCarouselToInstagram carouselHappyWorld carouselExampleInput).2.get? 0 =
      some (childCreateRequest "42" "tok"
        { type := .IMAGE, url := "http://example.com/a.jpg" }) ∧
    ("image_url", "http://example.com/a.jpg") ∈
      childContainerParams
        { type := CarouselMediaType.IMAGE, url := "http://example.com/a.jpg" } "tok" := by
  have h := (postCarouselToInstagram_no_preflight carouselHappyWorld carouselExampleInput
    "42" "tok" rfl (by decide) (by decide)).2 0 (by decide)
    (fun j hj => absurd hj (Nat.not_lt_zero j))
  simpa using h

end InstaMcp
